import Mathlib

/-
Verification of the schema-inference core of xsd2pgsql.py: a shallow
embedding of the type-resolution dictionary (SDict / DEFX2P), the user-type
registry builder (buildTypes), the recursive schema walker (look4element)
and the per-file driver flow of main, together with theorems settling the
frozen behavioural claims about them.
-/

set_option autoImplicit false

namespace Xsd2pgsql

/-! ## The XML data model

An element of the parsed XSD tree, as consumed by the source: only the tag
and the attributes name, type, ref, base are ever read, plus the ordered
list of direct children.  Tags are stored fully namespace-qualified, the
way lxml reports them.  The attribute getter x.get(k) yields None for an
absent attribute, modelled as Option String. -/

inductive XNode where
  | mk (tag : String) (name typeAttr ref base : Option String)
       (children : List XNode)

def XNode.tag : XNode → String
  | .mk t _ _ _ _ _ => t

def XNode.name : XNode → Option String
  | .mk _ n _ _ _ _ => n

def XNode.typeAttr : XNode → Option String
  | .mk _ _ t _ _ _ => t

def XNode.ref : XNode → Option String
  | .mk _ _ _ r _ _ => r

def XNode.base : XNode → Option String
  | .mk _ _ _ _ b _ => b

def XNode.children : XNode → List XNode
  | .mk _ _ _ _ _ c => c

/-- Python truthiness of an optional string: None and the empty string are
falsy, any other string is truthy. -/
def truthy : Option String → Bool
  | none => false
  | some s => s != ""

/-- Python `a or b` over two optional strings: yields `a` when truthy,
otherwise `b`. -/
def pyOrO (a b : Option String) : Option String :=
  if truthy a then a else b

/-- Python `a or d` where the fallback is a plain string literal. -/
def pyOrD (a : Option String) (d : String) : String :=
  match a with
  | some s => if s != "" then s else d
  | none => d

/-- Python str() of a value that is either a string or None, as used by
the %s conversions in the source ("None" for None). -/
def strOfOpt : Option String → String
  | none => "None"
  | some s => s

/-- lxml element truthiness: an element tests as true iff it has at least
one child (bool(element) is len(element) > 0).  This is the test performed
by the source at `if type_node:`. -/
def elemTruthy (n : XNode) : Bool :=
  !n.children.isEmpty

/-- `el.findall(tag)`: the direct children of el whose qualified tag
matches. -/
def findall (el : XNode) (tag : String) : List XNode :=
  el.children.filter (fun c => c.tag == tag)

/-- `el.find(tag)`: the first direct child of el whose qualified tag
matches, or None. -/
def findFirstChild (el : XNode) (tag : String) : Option XNode :=
  el.children.find? (fun c => c.tag == tag)

/-! ## Constants from the source -/

def MAX_RECURSE_LEVEL : Nat := 100

/-- XMLS = "{http://www.w3.org/2001/XMLSchema}", the qualified-tag
namespace marker used by lxml. -/
def XMLS : String := "\x7bhttp://www.w3.org/2001/XMLSchema\x7d"

def XMLS_PREFIX : String := "xs:"

/-! ## The type-resolution dictionary (SDict / DEFX2P)

DEFX2P is a dict from XSD primitive names to either a PostgreSQL type
string, a %-template referring to another entry (alias), or Python None
(a recognised primitive with no relational equivalent).  We model it as an
association list with Option String values; keys are unique.

SDict overrides dict lookup so that the stored value is %-formatted
against the dict itself: `dict.__getitem__(self, item) % self`.  Template
substitution `%(key)s` therefore re-enters SDict.__getitem__ recursively.
Crucially, when the stored value is None the expression `None % self`
raises TypeError, and SDict.get only catches KeyError. -/

inductive PyErr where
  | keyError (k : String)
  | typeError
  | valueError
  | attributeError
  | recursionError
  deriving Repr, DecidableEq

/-- Plain dict lookup (dict.__getitem__ success/failure, no formatting). -/
def lookupA (tbl : List (String × Option String)) (k : String) :
    Option (Option String) :=
  (tbl.find? (fun p => p.1 == k)).map (fun p => p.2)

/-- Python %-formatting of a template against an SDict, fused with
SDict.__getitem__: each `%(key)s` looks the key up via __getitem__, which
formats the entry recursively; a None entry raises TypeError, an absent
key raises KeyError, a malformed conversion raises ValueError.  The fuel
bounds the __getitem__ re-entrancy: a cyclic table would exhaust it, just
as Python would raise RecursionError (the fixed table is acyclic, so any
generous fuel is enough). -/
def sdictFormat (tbl : List (String × Option String)) :
    Nat → List Char → Except PyErr String
  | 0, _ => .error .recursionError
  | _ + 1, [] => .ok ""
  | f + 1, '%' :: '%' :: rest =>
      (sdictFormat tbl f rest).map (fun r => "%" ++ r)
  | f + 1, '%' :: '(' :: rest =>
      let key : String := String.mk (rest.takeWhile (fun c => c != ')'))
      match rest.dropWhile (fun c => c != ')') with
      | ')' :: 's' :: rest3 =>
          match lookupA tbl key with
          | none => .error (.keyError key)
          | some none => .error .typeError
          | some (some tmpl) =>
              match sdictFormat tbl f tmpl.toList with
              | .error e => .error e
              | .ok v =>
                  match sdictFormat tbl f rest3 with
                  | .error e => .error e
                  | .ok r => .ok (v ++ r)
      | _ => .error .valueError
  | _ + 1, '%' :: _ => .error .valueError
  | f + 1, c :: rest =>
      (sdictFormat tbl f rest).map (fun r => String.mk [c] ++ r)

/-- SDict.get: `try: return dict.__getitem__(self, item) % self
except KeyError: return None`.  A missing key, or a KeyError raised while
formatting, yields ok none; a None entry raises TypeError, which is NOT
caught and escapes to the caller. -/
def SDict.get (tbl : List (String × Option String)) (item : String) :
    Except PyErr (Option String) :=
  match lookupA tbl item with
  | none => .ok none
  | some none => .error .typeError
  | some (some tmpl) =>
      match sdictFormat tbl 1000 tmpl.toList with
      | .ok s => .ok (some s)
      | .error (.keyError _) => .ok none
      | .error e => .error e

/-- The XSD-to-PostgreSQL translation dictionary, entry for entry in
source order. -/
def DEFX2P : List (String × Option String) := [
  ("string", some "varchar"),
  ("boolean", some "boolean"),
  ("decimal", some "numeric"),
  ("float", some "real"),
  ("double", some "double precision"),
  ("duration", some "interval"),
  ("dateTime", some "timestamp"),
  ("time", some "time"),
  ("date", some "date"),
  ("gYearMonth", some "timestamp"),
  ("gYear", some "timestamp"),
  ("gMonthDay", some "timestamp"),
  ("gDay", some "timestamp"),
  ("gMonth", some "timestamp"),
  ("hexBinary", some "bytea"),
  ("base64Binary", some "bytea"),
  ("anyURI", some "varchar"),
  ("QName", none),
  ("NOTATION", none),
  ("normalizedString", some "%(string)s"),
  ("token", some "%(string)s"),
  ("language", some "%(string)s"),
  ("NMTOKEN", none),
  ("NMTOKENS", none),
  ("Name", some "%(string)s"),
  ("NCName", some "%(string)s"),
  ("ID", none),
  ("IDREF", none),
  ("IDREFS", none),
  ("ENTITY", none),
  ("ENTITIES", none),
  ("integer", some "integer"),
  ("nonPositiveInteger", some "%(integer)s"),
  ("negativeInteger", some "%(integer)s"),
  ("long", some "%(integer)s"),
  ("int", some "%(integer)s"),
  ("short", some "%(integer)s"),
  ("byte", some "%(integer)s"),
  ("nonNegativeInteger", some "%(integer)s"),
  ("unsignedLong", some "%(integer)s"),
  ("unsignedInt", some "%(integer)s"),
  ("unsignedShort", some "%(integer)s"),
  ("unsignedByte", some "%(integer)s"),
  ("positiveInteger", some "%(integer)s")
]

/-- Plain `dict.get(k)` on the USER_TYPES dict: the stored value (which
may itself be None) when present, None when absent. -/
def dictGet (d : List (String × Option String)) (k : String) :
    Option String :=
  match lookupA d k with
  | some v => v
  | none => none

/-- Python dict assignment `d[k] = v`: overwrite an existing binding in
place, else append (insertion order preserved, as in Python dicts). -/
def dictSet (d : List (String × Option String)) (k : String)
    (v : Option String) : List (String × Option String) :=
  if d.any (fun p => p.1 == k) then
    d.map (fun p => if p.1 == k then (k, v) else p)
  else
    d ++ [(k, v)]

/-- Python str.replace semantics over character lists: replace every
non-overlapping occurrence of pat left to right.  The fuel argument only
makes the recursion structural; every call site passes a non-empty pat and
fuel larger than the input length, so the fuel never runs out. -/
def pyReplaceAux (pat rep : List Char) : Nat → List Char → List Char
  | _, [] => []
  | 0, l => l
  | f + 1, c :: rest =>
      if pat.isPrefixOf (c :: rest) then
        rep ++ pyReplaceAux pat rep f (List.drop pat.length (c :: rest))
      else
        c :: pyReplaceAux pat rep f rest

/-- `s.replace(pat, rep)` for a non-empty pattern. -/
def pyReplace (s pat rep : String) : String :=
  String.mk (pyReplaceAux pat.toList rep.toList (s.toList.length + 1) s.toList)

/-- `s.lower()`; the identifiers handled by the program are ASCII, where
Python lower() and Char.toLower agree. -/
def pyLower (s : String) : String :=
  String.mk (s.toList.map Char.toLower)

/-- pg_normalize: None becomes the empty string, then the characters
"-", "." and " " are replaced by "_" and the result is lowercased. -/
def pg_normalize (s : Option String) : String :=
  let s0 := match s with
    | none => ""
    | some t => t
  pyLower (pyReplace (pyReplace (pyReplace s0 "-" "_") "." "_") " " "_")

/-! ## The schema walker (look4element)

Exceptions that can escape the walk.  InvalidXMLType mirrors the class of
the same name declared in the source (`class InvalidXMLType(Exception):
pass`); note that no statement in the source ever raises it.  MaxRecursion
is raised by the depth guard.  pyErr wraps a Python-level exception that
escapes a dictionary lookup (in particular the TypeError from SDict.get on
a None entry).  outOfFuel is a modelling artefact: the walk is driven by a
fuel counter, and every entry point below supplies more fuel than the
depth guard permits consuming, so outOfFuel is unreachable from them. -/

inductive WalkErr where
  | maxRecursion
  | invalidXMLType
  | pyErr (e : PyErr)
  | outOfFuel
  deriving Repr, DecidableEq

/-- `root.find("r:complexType[@name=...]")` with the hardcoded XMLSchema
namespace map nsd: the first direct child of root that is a complexType
whose name attribute equals nm. -/
def findComplexType (root : XNode) (nm : String) : Option XNode :=
  root.children.find? (fun c =>
    c.tag == XMLS ++ "complexType" && c.name == some nm)

/-- The statement appended after the element loop: when cols is non-None,
`"CREATE TABLE %s (%s);" % (parent, cols)` (note: parent exactly as
passed, never normalized here), otherwise nothing. -/
def ownTable (parent : Option String) : Option String → String
  | none => ""
  | some c => "CREATE TABLE " ++ strOfOpt parent ++ " (" ++ c ++ ");"

/-- The complexType / sequence loops of look4element: for each child,
set children = True, recurse (the recursion itself is abstracted as g)
and append the returned sql plus a newline.  An escaping exception aborts
the loop. -/
def tagLoopF (g : XNode → Except WalkErr (Bool × String)) :
    List XNode → Bool → String → Except WalkErr (Bool × String)
  | [], ch, sql => .ok (ch, sql)
  | x :: rest, _, sql =>
      match g x with
      | .error e => .error e
      | .ok rez => tagLoopF g rest true (sql ++ rez.2 ++ "\n")

/-- The element loop of look4element, with the recursive call abstracted
as g (taking the child node and the parent-name argument
`x.get("name") or parent`).  State threaded exactly as in the source:
children flag, sql buffer, cols accumulator.  For each child element:
recurse, append its sql plus a newline; when the child reported no
structural children, resolve its type:
`thisType = x.get("type") or x.get("ref") or "string"`, strip the xs:
prefix, then `pgType = DEFX2P.get(k) or USER_TYPES.get(k) or None`
(DEFX2P.get may raise, aborting the walk).  A truthy pgType appends
`colName pgType` to cols, where colName is `x.get("name") or x.get("ref")`
normalized iff normalize is set.  A falsy pgType looks up a top-level
complexType declaration named `k.replace("dlican:", "")`; when found AND
non-empty (lxml truthiness) the walk recurses into it and appends its sql,
otherwise the field is dropped.  The source writes the falsy branch first
(`if not pgType: ... elif pgType: ...`); the two branches are exact
complements, so they are rendered here as a single if. -/
def elemLoopF (g : XNode → Option String → Except WalkErr (Bool × String))
    (root : XNode) (ut : List (String × Option String))
    (parent : Option String) (normalize : Bool) :
    List XNode → Bool → String → Option String →
    Except WalkErr (Bool × String × Option String)
  | [], ch, sql, cols => .ok (ch, sql, cols)
  | x :: rest, _, sql, cols =>
      match g x (pyOrO x.name parent) with
      | .error e => .error e
      | .ok rez =>
          let sql1 := sql ++ rez.2 ++ "\n"
          if rez.1 then
            elemLoopF g root ut parent normalize rest true sql1 cols
          else
            let thisType := pyOrD (pyOrO x.typeAttr x.ref) "string"
            let k := pyReplace thisType XMLS_PREFIX ""
            match SDict.get DEFX2P k with
            | .error e => .error (.pyErr e)
            | .ok dv =>
                let pgType := pyOrO (pyOrO dv (dictGet ut k)) none
                if truthy pgType then
                  let colName := pyOrO x.name x.ref
                  let colNameS :=
                    if normalize then pg_normalize colName
                    else strOfOpt colName
                  let entry := colNameS ++ " " ++ strOfOpt pgType
                  let cols2 :=
                    if truthy cols then
                      some (strOfOpt cols ++ ", " ++ entry)
                    else some entry
                  elemLoopF g root ut parent normalize rest true sql1 cols2
                else
                  let nameK := pyReplace k "dlican:" ""
                  match findComplexType root nameK with
                  | some tn =>
                      if elemTruthy tn then
                        match g tn tn.name with
                        | .error e => .error e
                        | .ok rez2 =>
                            elemLoopF g root ut parent normalize rest true
                              (sql1 ++ rez2.2 ++ "\n") cols
                      else
                        elemLoopF g root ut parent normalize rest true
                          sql1 cols
                  | none =>
                      elemLoopF g root ut parent normalize rest true
                        sql1 cols

/-- look4element(root, ns, el, parent, recurse_level, fail, normalize).
The USER_TYPES global is passed explicitly as ut (it is read-only during
the walk).  Raises MaxRecursion as soon as recurse_level > 100; then runs
the element loop (sql and cols start empty, children starts False),
appends this node's CREATE TABLE statement if cols is non-empty, then the
complexType loop and the sequence loop, and returns (children, sql).
Every recursive call in the source passes recurse_level + 1 and forwards
fail as a keyword argument but does NOT forward normalize, so the Python
default normalize=True applies below the top level; the literal `true` in
the recursive closures renders that default.  The fuel argument only makes
the recursion structural; the MaxRecursion guard fires before fuel can
ever run out when fuel exceeds 101 minus the starting level. -/
def look4element (fuel : Nat) (root : XNode) (ns : String) (el : XNode)
    (ut : List (String × Option String)) (parent : Option String)
    (recurse_level : Nat) (fail : Bool) (normalize : Bool) :
    Except WalkErr (Bool × String) :=
  match fuel with
  | 0 => .error .outOfFuel
  | fuel + 1 =>
    if recurse_level > MAX_RECURSE_LEVEL then .error .maxRecursion
    else
      match elemLoopF
          (fun x p => look4element fuel root ns x ut p
            (recurse_level + 1) fail true)
          root ut parent normalize (findall el (ns ++ "element"))
          false "" none with
      | .error e => .error e
      | .ok (children, sqlE, cols) =>
          let sql1 := sqlE ++ ownTable parent cols
          match tagLoopF
              (fun x => look4element fuel root ns x ut
                (pyOrO x.name parent) (recurse_level + 1) fail true)
              (findall el (ns ++ "complexType")) children sql1 with
          | .error e => .error e
          | .ok (children2, sql2) =>
              match tagLoopF
                  (fun x => look4element fuel root ns x ut
                    (pyOrO x.name parent) (recurse_level + 1) fail true)
                  (findall el (ns ++ "sequence")) children2 sql2 with
              | .error e => .error e
              | .ok res => .ok res

/-! ## buildTypes -/

/-- First loop of buildTypes: for each top-level element child carrying
truthy name and type attributes, store
`USER_TYPES[pg_normalize(name)] = DEFX2P.get(type.replace("xs:", ""))`.
The DEFX2P.get call can raise (TypeError on an unsupported primitive),
aborting buildTypes. -/
def buildTypesElems (ut : List (String × Option String)) :
    List XNode → Except PyErr (List (String × Option String))
  | [] => .ok ut
  | el :: rest =>
      if truthy el.name && truthy el.typeAttr then
        match SDict.get DEFX2P
            (pyReplace (strOfOpt el.typeAttr) XMLS_PREFIX "") with
        | .error e => .error e
        | .ok v => buildTypesElems (dictSet ut (pg_normalize el.name) v) rest
      else buildTypesElems ut rest

/-- Second loop of buildTypes: for each top-level simpleType child, take
its first restriction child (AttributeError if there is none, or if it
has no base attribute: `restr.get("base").replace(...)` on None) and store
`USER_TYPES[pg_normalize(name)] = base.replace("xs:", "")` — the raw
prefix-stripped base NAME, with no DEFX2P resolution applied. -/
def buildTypesSimple (ut : List (String × Option String)) :
    List XNode → Except PyErr (List (String × Option String))
  | [] => .ok ut
  | el :: rest =>
      match findFirstChild el (XMLS ++ "restriction") with
      | none => .error .attributeError
      | some restr =>
          match restr.base with
          | none => .error .attributeError
          | some b =>
              buildTypesSimple
                (dictSet ut (pg_normalize el.name)
                  (some (pyReplace b XMLS_PREFIX ""))) rest

/-- buildTypes(ns, root_element) with the XMLSchema namespace, starting
from an empty USER_TYPES as in a fresh process run. -/
def buildTypes (root_element : XNode) :
    Except PyErr (List (String × Option String)) :=
  match buildTypesElems [] (findall root_element (XMLS ++ "element")) with
  | .error e => .error e
  | .ok ut => buildTypesSimple ut (findall root_element (XMLS ++ "simpleType"))

/-! ## The per-file driver flow of main -/

/-- `f.name.split(".")[0]`: everything before the first dot (the whole
string when there is none). -/
def pySplitDotHead (s : String) : String :=
  String.mk (s.toList.takeWhile (fun c => c != '.'))

/-- One iteration of main over a parsed file: buildTypes, then
`look4element(xsd, XMLS, xsd, pg_normalize(f.name.split(".")[0]),
fail=args.failOnBadType, normalize=not args.as_is)` starting at depth 0.
Fuel 200 strictly dominates the depth guard (every call chain aborts at
recurse_level 101, i.e. within 102 nested calls). -/
def convert (xsd : XNode) (fname : String) (failOnBadType as_is : Bool) :
    Except WalkErr (Bool × String) :=
  match buildTypes xsd with
  | .error e => .error (.pyErr e)
  | .ok ut =>
      look4element 200 xsd XMLS xsd ut
        (some (pg_normalize (some (pySplitDotHead fname))))
        0 failOnBadType (!as_is)

/-! ## Helper lemmas about the walk -/

/-- Running one of the complexType/sequence loops with a non-empty initial
sql buffer is the same as running it on an empty buffer and prepending:
the loop only ever appends to the buffer. -/
theorem tagLoopF_shift (g : XNode → Except WalkErr (Bool × String))
    (xs : List XNode) (ch : Bool) (sql0 : String) :
    tagLoopF g xs ch sql0 =
      (tagLoopF g xs ch "").map (fun p => (p.1, sql0 ++ p.2)) := by
  induction xs generalizing ch sql0 with
  | nil => simp [tagLoopF, Except.map]
  | cons x rest ih =>
      simp only [tagLoopF]
      cases g x with
      | error e => simp [Except.map]
      | ok rez =>
          dsimp only
          rw [ih true (sql0 ++ rez.2 ++ "\n"), ih true ("" ++ rez.2 ++ "\n")]
          cases tagLoopF g rest true "" with
          | error e => simp [Except.map]
          | ok p => simp [Except.map, String.append_assoc]

/-- Successful one-step decomposition of look4element: the returned sql is
the element-loop output, then this node's own CREATE TABLE statement (when
cols is non-None), then the complexType-loop output, then the
sequence-loop output, concatenated in that order. -/
theorem look4_decomp (fuel : Nat) (root : XNode) (ns : String) (el : XNode)
    (ut : List (String × Option String)) (parent : Option String) (r : Nat)
    (fail nm : Bool) (bE bC bS : Bool) (sE sC sS : String)
    (colsO : Option String)
    (hr : ¬ r > MAX_RECURSE_LEVEL)
    (hE : elemLoopF
        (fun x p => look4element fuel root ns x ut p (r + 1) fail true)
        root ut parent nm (findall el (ns ++ "element")) false "" none =
        .ok (bE, sE, colsO))
    (hC : tagLoopF
        (fun x => look4element fuel root ns x ut (pyOrO x.name parent)
          (r + 1) fail true)
        (findall el (ns ++ "complexType")) bE "" = .ok (bC, sC))
    (hS : tagLoopF
        (fun x => look4element fuel root ns x ut (pyOrO x.name parent)
          (r + 1) fail true)
        (findall el (ns ++ "sequence")) bC "" = .ok (bS, sS)) :
    look4element (fuel + 1) root ns el ut parent r fail nm =
      .ok (bS, sE ++ (ownTable parent colsO ++ (sC ++ sS))) := by
  simp only [look4element, if_neg hr]
  rw [hE]
  dsimp only
  rw [tagLoopF_shift _ _ bE (sE ++ ownTable parent colsO), hC]
  dsimp only [Except.map]
  rw [tagLoopF_shift _ _ bC ((sE ++ ownTable parent colsO) ++ sC), hS]
  dsimp only [Except.map]
  simp [String.append_assoc]

/-- The fail argument is threaded through every recursive call of
look4element but never read: the walk result is entirely independent of
it (the source contains no use of the flag and no raise of
InvalidXMLType). -/
theorem look4element_fail_irrelevant (fuel : Nat) :
    ∀ (root : XNode) (ns : String) (el : XNode)
      (ut : List (String × Option String)) (parent : Option String)
      (r : Nat) (f1 f2 nm : Bool),
      look4element fuel root ns el ut parent r f1 nm =
        look4element fuel root ns el ut parent r f2 nm := by
  induction fuel with
  | zero => intros; rfl
  | succ f ih =>
      intro root ns el ut parent r f1 f2 nm
      have h1 : (fun (x : XNode) (p : Option String) =>
            look4element f root ns x ut p (r + 1) f1 true)
          = (fun (x : XNode) (p : Option String) =>
            look4element f root ns x ut p (r + 1) f2 true) :=
        funext fun x => funext fun p => ih root ns x ut p (r + 1) f1 f2 true
      have h2 : (fun (x : XNode) =>
            look4element f root ns x ut (pyOrO x.name parent) (r + 1) f1 true)
          = (fun (x : XNode) =>
            look4element f root ns x ut (pyOrO x.name parent) (r + 1) f2 true) :=
        funext fun x => ih root ns x ut (pyOrO x.name parent) (r + 1) f1 f2 true
      simp only [look4element, h1, h2]

/-! ## A deep element chain for the recursion-limit claim -/

/-- chainEl n is a chain of n+1 nested element nodes. -/
def chainEl : Nat → XNode
  | 0 => .mk (XMLS ++ "element") (some "c") none none none []
  | n + 1 => .mk (XMLS ++ "element") (some "c") none none none [chainEl n]

theorem chainEl_tag (n : Nat) : (chainEl n).tag = XMLS ++ "element" := by
  cases n <;> simp [chainEl, XNode.tag]

theorem chainEl_name (n : Nat) : (chainEl n).name = some "c" := by
  cases n <;> simp [chainEl, XNode.name]

theorem chainEl_typeAttr (n : Nat) : (chainEl n).typeAttr = none := by
  cases n <;> simp [chainEl, XNode.typeAttr]

/-- Walking a chain that still has n nested elements below it from level r
with r + n = 102 always aborts with MaxRecursion: the guard fires at
level 101. -/
theorem chain_walk_maxRecursion :
    ∀ (n fuel : Nat) (root : XNode) (ut : List (String × Option String))
      (parent : Option String) (r : Nat) (fail nm : Bool),
      r + n = 102 → n < fuel →
      look4element fuel root XMLS (chainEl n) ut parent r fail nm =
        .error .maxRecursion := by
  intro n
  induction n with
  | zero =>
      intro fuel root ut parent r fail nm hsum hfuel
      match fuel, hfuel with
      | fuel + 1, _ =>
        have hr : r = 102 := by omega
        subst hr
        simp [look4element, MAX_RECURSE_LEVEL]
  | succ n ih =>
      intro fuel root ut parent r fail nm hsum hfuel
      match fuel, hfuel with
      | fuel + 1, _ =>
        by_cases hr : r > MAX_RECURSE_LEVEL
        · simp [look4element, hr]
        · simp only [look4element, if_neg hr]
          have hfind :
              findall (chainEl (n + 1)) (XMLS ++ "element") = [chainEl n] := by
            simp [chainEl, findall, XNode.children, chainEl_tag]
          rw [hfind]
          simp only [elemLoopF]
          rw [ih fuel root ut _ (r + 1) fail true (by omega) (by omega)]

/-- The schema document holding a chain of 102 nested elements. -/
def deepSchema : XNode := .mk (XMLS ++ "schema") none none none none [chainEl 101]

theorem deep_buildTypes : buildTypes deepSchema = .ok [] := by
  have h1 : findall deepSchema (XMLS ++ "element") = [chainEl 101] := by
    simp [deepSchema, findall, XNode.children, chainEl_tag]
  have h2 : findall deepSchema (XMLS ++ "simpleType") = [] := by
    have hne : ((XMLS ++ "element") == (XMLS ++ "simpleType")) = false := by
      decide
    simp [deepSchema, findall, XNode.children, chainEl_tag, hne]
  simp only [buildTypes]
  rw [h1]
  simp only [buildTypesElems, chainEl_name, chainEl_typeAttr, truthy]
  rw [h2]
  simp [buildTypesSimple]

theorem deep_walk (fuel : Nat) (hf : 101 < fuel)
    (ut : List (String × Option String)) (P : Option String)
    (fail nm : Bool) :
    look4element (fuel + 1) deepSchema XMLS deepSchema ut P 0 fail nm =
      .error .maxRecursion := by
  have hr : ¬ (0 : Nat) > MAX_RECURSE_LEVEL := by decide
  simp only [look4element, if_neg hr]
  have hfind : findall deepSchema (XMLS ++ "element") = [chainEl 101] := by
    simp [deepSchema, findall, XNode.children, chainEl_tag]
  rw [hfind]
  simp only [elemLoopF]
  rw [chain_walk_maxRecursion 101 fuel deepSchema ut _ 1 fail true
    (by omega) (by omega)]

/-! ## Substring position, for stating statement order inside a DDL string -/

def strIndexOfAux (pat : List Char) : List Char → Nat → Option Nat
  | [], i => if pat.isEmpty then some i else none
  | c :: rest, i =>
      if pat.isPrefixOf (c :: rest) then some i
      else strIndexOfAux pat rest (i + 1)

/-- Character index of the first occurrence of pat inside s, if any. -/
def strIndexOf (s pat : String) : Option Nat :=
  strIndexOfAux pat.toList s.toList 0

/-! ## Concrete schema fixtures -/

/-- An element node with no attributes and no children. -/
def emptyNode : XNode := .mk (XMLS ++ "element") none none none none []

def leafOrderId : XNode :=
  .mk (XMLS ++ "element") (some "OrderId") (some "xs:integer") none none []

def leafCust : XNode :=
  .mk (XMLS ++ "element") (some "Customer-Name") (some "xs:string") none none []

def seqOrder : XNode :=
  .mk (XMLS ++ "sequence") none none none none [leafOrderId, leafCust]

def ctOrder : XNode := .mk (XMLS ++ "complexType") none none none none [seqOrder]

/-- The root element Order containing OrderId and Customer-Name through
the usual complexType/sequence nesting of an XSD. -/
def elOrder : XNode := .mk (XMLS ++ "element") (some "Order") none none none [ctOrder]

def orderSchema : XNode := .mk (XMLS ++ "schema") none none none none [elOrder]

/-- A schema whose only element is a leaf of type xs:ID. -/
def leafID : XNode := .mk (XMLS ++ "element") (some "f") (some "xs:ID") none none []

def schemaID : XNode := .mk (XMLS ++ "schema") none none none none [leafID]

/-- A schema whose only element is a leaf with an unresolvable type name
(no built-in, no user type, no top-level complexType of that name). -/
def leafBad : XNode :=
  .mk (XMLS ++ "element") (some "f") (some "noSuchType") none none []

def schemaBad : XNode := .mk (XMLS ++ "schema") none none none none [leafBad]

/-- A schema with one structural element A whose own leaf child is named
Foo-Bar. -/
def leafFooBar : XNode :=
  .mk (XMLS ++ "element") (some "Foo-Bar") (some "xs:string") none none []

def elA : XNode := .mk (XMLS ++ "element") (some "A") none none none [leafFooBar]

def schemaFooBar : XNode := .mk (XMLS ++ "schema") none none none none [elA]

/-- A node with a structural element child A (a nested table) and a leaf
child M (a column of the node itself). -/
def leafX6 : XNode := .mk (XMLS ++ "element") (some "x") (some "xs:string") none none []

def elA6 : XNode := .mk (XMLS ++ "element") (some "A") none none none [leafX6]

def leafM6 : XNode := .mk (XMLS ++ "element") (some "M") (some "xs:string") none none []

def nodeP6 : XNode := .mk (XMLS ++ "schema") none none none none [elA6, leafM6]

/-- Fixtures for the empty-complexType claim: a leaf of type T next to an
empty (or non-empty, or absent) top-level complexType named T. -/
def leafT10 : XNode := .mk (XMLS ++ "element") (some "f") (some "T") none none []

def rootEl10 : XNode := .mk (XMLS ++ "element") (some "root") none none none [leafT10]

def emptyT10 : XNode := .mk (XMLS ++ "complexType") (some "T") none none none []

def leafU10 : XNode := .mk (XMLS ++ "element") (some "u") (some "xs:string") none none []

def fullT10 : XNode := .mk (XMLS ++ "complexType") (some "T") none none none [leafU10]

def schemaWithEmptyT : XNode :=
  .mk (XMLS ++ "schema") none none none none [rootEl10, emptyT10]

def schemaWithoutT : XNode :=
  .mk (XMLS ++ "schema") none none none none [rootEl10]

def schemaWithFullT : XNode :=
  .mk (XMLS ++ "schema") none none none none [rootEl10, fullT10]

/-- Fixture for the simpleType registration claim. -/
def restrStr : XNode :=
  .mk (XMLS ++ "restriction") none none none (some "xs:string") []

def stMyStr : XNode :=
  .mk (XMLS ++ "simpleType") (some "myStr") none none none [restrStr]

def schemaMyStr : XNode := .mk (XMLS ++ "schema") none none none none [stMyStr]

/-- A schema holding exactly one simpleType declaration named nm whose
restriction carries base b. -/
def oneSimpleTypeSchema (nm b : String) : XNode :=
  .mk (XMLS ++ "schema") none none none none
    [.mk (XMLS ++ "simpleType") (some nm) none none none
      [.mk (XMLS ++ "restriction") none none none (some b) []]]

/-! ## Claim theorems -/

/-- C1: contrary to the claim, resolving any of the nine unsupported
primitives through SDict.get does NOT return the None marker: the stored
value is Python None and `None % self` raises TypeError, which get does
not catch (it only catches KeyError); a walk that reaches such a lookup
crashes instead of dropping the field silently.  Each conjunct evaluates
the code at one of the nine names, and the last conjunct evaluates the
walk on a schema whose leaf has type xs:ID. -/
theorem unsupported_primitive_get_raises :
    SDict.get DEFX2P "ID" = .error .typeError
    ∧ SDict.get DEFX2P "IDREF" = .error .typeError
    ∧ SDict.get DEFX2P "IDREFS" = .error .typeError
    ∧ SDict.get DEFX2P "NOTATION" = .error .typeError
    ∧ SDict.get DEFX2P "QName" = .error .typeError
    ∧ SDict.get DEFX2P "NMTOKEN" = .error .typeError
    ∧ SDict.get DEFX2P "NMTOKENS" = .error .typeError
    ∧ SDict.get DEFX2P "ENTITY" = .error .typeError
    ∧ SDict.get DEFX2P "ENTITIES" = .error .typeError
    ∧ look4element 10 schemaID XMLS schemaID [] (some "t") 0 false true =
        .error (.pyErr .typeError) :=
  ⟨rfl, rfl, rfl, rfl, rfl, rfl, rfl, rfl, rfl, rfl⟩

/-- C2: contrary to the claim, the strict-mode flag has no effect at all:
look4element threads fail through every recursive call but never reads it,
and InvalidXMLType is never raised anywhere.  First conjunct: the walk
result is independent of the flag for every input whatsoever.  Second
conjunct: with fail = true, a leaf whose type resolves to neither a
built-in, a user type, nor a discoverable complexType is still dropped
silently and the walk returns ok. -/
theorem fail_flag_has_no_effect :
    (∀ (fuel : Nat) (root : XNode) (ns : String) (el : XNode)
        (ut : List (String × Option String)) (parent : Option String)
        (r : Nat) (f1 f2 nm : Bool),
        look4element fuel root ns el ut parent r f1 nm =
          look4element fuel root ns el ut parent r f2 nm)
    ∧ look4element 10 schemaBad XMLS schemaBad [] (some "t") 0 true true =
        .ok (true, "\n") :=
  ⟨fun fuel root ns el ut parent r f1 f2 nm =>
    look4element_fail_irrelevant fuel root ns el ut parent r f1 f2 nm, rfl⟩

/-- C3 counterexample: a top-level simpleType named myStr restricting
xs:string is registered as ("mystr", "string") — the raw prefix-stripped
base NAME — whereas resolving the base through the built-in table gives
"varchar"; the registered value is not the resolved built-in type the
claim describes. -/
theorem simpleType_base_unresolved_cex :
    buildTypes schemaMyStr = .ok [("mystr", some "string")]
    ∧ SDict.get DEFX2P "string" = .ok (some "varchar")
    ∧ dictGet [("mystr", some "string")] "mystr" ≠ some "varchar" :=
  ⟨rfl, rfl, by decide⟩

/-- C3 amended: for every top-level simpleType declaration carrying a
restriction with a base attribute, buildTypes stores the normalized
declared name mapped to the prefix-stripped base name string itself
(restriction base xs:string stores "string"), with no resolution of the
base through the built-in table. -/
theorem simpleType_registers_raw_base (nm b : String) :
    buildTypes (oneSimpleTypeSchema nm b) =
      .ok [(pg_normalize (some nm), some (pyReplace b XMLS_PREFIX ""))] := rfl

/-- C4: contrary to the claim, the normalize flag is not forwarded by any
recursive call, so disabling it at the root does not disable column-name
normalization below the top level: walking a schema whose nested leaf is
named Foo-Bar with normalize = false still emits the normalized column
foo_bar, and the output is identical to the normalize = true run. -/
theorem normalize_flag_not_propagated :
    look4element 10 schemaFooBar XMLS schemaFooBar [] (some "top") 0 false false =
      .ok (true, "\nCREATE TABLE A (foo_bar varchar);\n")
    ∧ look4element 10 schemaFooBar XMLS schemaFooBar [] (some "top") 0 false false =
      look4element 10 schemaFooBar XMLS schemaFooBar [] (some "top") 0 false true :=
  ⟨rfl, rfl⟩

/-- C5 counterexample: converting the Order schema does not yield exactly
the claimed statement: the emitted table name is the element name Order
taken verbatim (parent names are never normalized), and the walk output
carries the newline separators accumulated around child results. -/
theorem order_end_to_end_cex :
    convert orderSchema "order.xsd" false false =
      .ok (true,
        "\n\nCREATE TABLE Order (orderid integer, customer_name varchar);\n\n\n")
    ∧ "\n\nCREATE TABLE Order (orderid integer, customer_name varchar);\n\n\n" ≠
      "CREATE TABLE order (orderid integer, customer_name varchar);" :=
  ⟨rfl, by decide⟩

/-- C5 amended: converting the Order schema yields a DDL string whose sole
CREATE TABLE statement is
CREATE TABLE Order (orderid integer, customer_name varchar); — columns in
declaration order and normalized, but the table name is the unnormalized
element name Order — surrounded by the newline padding of the walk. -/
theorem order_end_to_end_actual :
    convert orderSchema "order.xsd" false false =
      .ok (true,
        "\n\nCREATE TABLE Order (orderid integer, customer_name varchar);\n\n\n") :=
  rfl

/-- C6 counterexample: for a node P with a structural element child A and
its own leaf column M, the CREATE TABLE of nested table A occurs at
character index 1 of the walk output while the CREATE TABLE of P itself
occurs at index 30: the nested statement precedes the parent statement,
refuting pre-order. -/
theorem nested_table_precedes_parent_cex :
    look4element 11 nodeP6 XMLS nodeP6 [] (some "P") 0 false true =
      .ok (true, "\nCREATE TABLE A (x varchar);\n\nCREATE TABLE P (m varchar);")
    ∧ strIndexOf
        "\nCREATE TABLE A (x varchar);\n\nCREATE TABLE P (m varchar);"
        "CREATE TABLE A" = some 1
    ∧ strIndexOf
        "\nCREATE TABLE A (x varchar);\n\nCREATE TABLE P (m varchar);"
        "CREATE TABLE P" = some 30
    ∧ (1 : Nat) < 30 :=
  ⟨rfl, rfl, rfl, by decide⟩

/-- C6 amended: the DDL produced for one node is ordered as: the
concatenated output of its element children first (hence tables produced
by structural element children appear BEFORE the node's own statement),
then the node's own CREATE TABLE statement when its column accumulator is
non-empty, then the outputs of complexType children, then sequence
children. -/
theorem walk_ddl_order (fuel : Nat) (root : XNode) (ns : String)
    (el : XNode) (ut : List (String × Option String))
    (parent : Option String) (r : Nat) (fail nm : Bool) (bE bC bS : Bool)
    (sE sC sS : String) (colsO : Option String)
    (hr : ¬ r > MAX_RECURSE_LEVEL)
    (hE : elemLoopF
        (fun x p => look4element fuel root ns x ut p (r + 1) fail true)
        root ut parent nm (findall el (ns ++ "element")) false "" none =
        .ok (bE, sE, colsO))
    (hC : tagLoopF
        (fun x => look4element fuel root ns x ut (pyOrO x.name parent)
          (r + 1) fail true)
        (findall el (ns ++ "complexType")) bE "" = .ok (bC, sC))
    (hS : tagLoopF
        (fun x => look4element fuel root ns x ut (pyOrO x.name parent)
          (r + 1) fail true)
        (findall el (ns ++ "sequence")) bC "" = .ok (bS, sS)) :
    look4element (fuel + 1) root ns el ut parent r fail nm =
      .ok (bS, sE ++ (ownTable parent colsO ++ (sC ++ sS))) :=
  look4_decomp fuel root ns el ut parent r fail nm bE bC bS sE sC sS colsO
    hr hE hC hS

/-- C6 witness: the decomposition instantiated on the concrete node P. -/
theorem walk_ddl_order_witness :
    look4element 11 nodeP6 XMLS nodeP6 [] (some "P") 0 false true =
      .ok (true, "\nCREATE TABLE A (x varchar);\n\n" ++
        (ownTable (some "P") (some "m varchar") ++ ("" ++ ""))) :=
  walk_ddl_order 10 nodeP6 XMLS nodeP6 [] (some "P") 0 false true
    true true true "\nCREATE TABLE A (x varchar);\n\n" "" ""
    (some "m varchar") (by decide) rfl rfl rfl

/-- C7: at every call, depth above the fixed ceiling 100 makes the walk
raise MaxRecursion at once (first conjunct, for any node and arguments);
and a schema whose elements nest 102 deep makes the whole conversion from
depth 0 abort with MaxRecursion, producing no DDL (second conjunct). -/
theorem recursion_limit_hard_abort :
    (∀ (fuel : Nat) (root : XNode) (ns : String) (el : XNode)
        (ut : List (String × Option String)) (parent : Option String)
        (r : Nat) (fail nm : Bool), r > MAX_RECURSE_LEVEL →
        look4element (fuel + 1) root ns el ut parent r fail nm =
          .error .maxRecursion)
    ∧ convert deepSchema "deep.xsd" false false = .error .maxRecursion := by
  constructor
  · intro fuel root ns el ut parent r fail nm hr
    simp only [look4element, if_pos hr]
  · simp only [convert]
    rw [deep_buildTypes]
    exact deep_walk 199 (by omega) _ _ _ _

/-- C7 witness: the guard conjunct applied at depth 101. -/
theorem recursion_limit_hard_abort_witness :
    look4element 1 emptyNode "x" emptyNode [] none 101 false true =
      .error .maxRecursion :=
  recursion_limit_hard_abort.1 0 emptyNode "x" emptyNode [] none 101
    false true (by decide)

/-- C8: every aliased built-in resolves to exactly the same literal column
type string as resolving the alias target directly: all integer-family
aliases agree with resolving integer (value integer), and all
string-family aliases agree with resolving string (value varchar). -/
theorem builtin_alias_agreement :
    SDict.get DEFX2P "integer" = .ok (some "integer")
    ∧ SDict.get DEFX2P "string" = .ok (some "varchar")
    ∧ SDict.get DEFX2P "int" = SDict.get DEFX2P "integer"
    ∧ SDict.get DEFX2P "long" = SDict.get DEFX2P "integer"
    ∧ SDict.get DEFX2P "short" = SDict.get DEFX2P "integer"
    ∧ SDict.get DEFX2P "byte" = SDict.get DEFX2P "integer"
    ∧ SDict.get DEFX2P "unsignedLong" = SDict.get DEFX2P "integer"
    ∧ SDict.get DEFX2P "unsignedInt" = SDict.get DEFX2P "integer"
    ∧ SDict.get DEFX2P "unsignedShort" = SDict.get DEFX2P "integer"
    ∧ SDict.get DEFX2P "unsignedByte" = SDict.get DEFX2P "integer"
    ∧ SDict.get DEFX2P "nonPositiveInteger" = SDict.get DEFX2P "integer"
    ∧ SDict.get DEFX2P "negativeInteger" = SDict.get DEFX2P "integer"
    ∧ SDict.get DEFX2P "nonNegativeInteger" = SDict.get DEFX2P "integer"
    ∧ SDict.get DEFX2P "positiveInteger" = SDict.get DEFX2P "integer"
    ∧ SDict.get DEFX2P "token" = SDict.get DEFX2P "string"
    ∧ SDict.get DEFX2P "Name" = SDict.get DEFX2P "string"
    ∧ SDict.get DEFX2P "NCName" = SDict.get DEFX2P "string"
    ∧ SDict.get DEFX2P "language" = SDict.get DEFX2P "string"
    ∧ SDict.get DEFX2P "normalizedString" = SDict.get DEFX2P "string" :=
  ⟨rfl, rfl, rfl, rfl, rfl, rfl, rfl, rfl, rfl, rfl, rfl, rfl, rfl, rfl,
   rfl, rfl, rfl, rfl, rfl⟩

/-- C9: when the element loop of a node ends with an empty column
accumulator (cols = None), the node's sql is exactly the element-loop
output followed by the complexType and sequence outputs — no CREATE TABLE
statement is inserted for the node itself. -/
theorem empty_cols_no_own_table (fuel : Nat) (root : XNode) (ns : String)
    (el : XNode) (ut : List (String × Option String))
    (parent : Option String) (r : Nat) (fail nm : Bool) (bE bC bS : Bool)
    (sE sC sS : String)
    (hr : ¬ r > MAX_RECURSE_LEVEL)
    (hE : elemLoopF
        (fun x p => look4element fuel root ns x ut p (r + 1) fail true)
        root ut parent nm (findall el (ns ++ "element")) false "" none =
        .ok (bE, sE, none))
    (hC : tagLoopF
        (fun x => look4element fuel root ns x ut (pyOrO x.name parent)
          (r + 1) fail true)
        (findall el (ns ++ "complexType")) bE "" = .ok (bC, sC))
    (hS : tagLoopF
        (fun x => look4element fuel root ns x ut (pyOrO x.name parent)
          (r + 1) fail true)
        (findall el (ns ++ "sequence")) bC "" = .ok (bS, sS)) :
    look4element (fuel + 1) root ns el ut parent r fail nm =
      .ok (bS, sE ++ (sC ++ sS)) := by
  have h := look4_decomp fuel root ns el ut parent r fail nm bE bC bS
    sE sC sS none hr hE hC hS
  simpa [ownTable] using h

/-- C9 witness: a node whose single element child is an unresolvable
leaf accumulates no columns and contributes no CREATE TABLE at all. -/
theorem empty_cols_no_own_table_witness :
    look4element 10 schemaBad XMLS schemaBad [] (some "t") 0 false true =
      .ok (true, "\n" ++ ("" ++ "")) :=
  empty_cols_no_own_table 9 schemaBad XMLS schemaBad [] (some "t") 0
    false true true true true "\n" "" "" (by decide) rfl rfl rfl

/-- C10: a leaf whose unresolvable type names a top-level complexType with
no children is treated exactly like an absent declaration (lxml element
truthiness: an empty element is falsy, so the walk does not recurse into
it) — same result as with no such complexType at all, ok, no column, no
DDL; and with a non-empty complexType of the same name the walk does
recurse and emits its table, confirming that only child-possession
triggers the recursion. -/
theorem empty_complexType_not_recursed :
    look4element 10 schemaWithEmptyT XMLS rootEl10 [] (some "root") 0 false true =
      look4element 10 schemaWithoutT XMLS rootEl10 [] (some "root") 0 false true
    ∧ look4element 10 schemaWithEmptyT XMLS rootEl10 [] (some "root") 0 false true =
      .ok (true, "\n")
    ∧ look4element 10 schemaWithFullT XMLS rootEl10 [] (some "root") 0 false true =
      .ok (true, "\n\nCREATE TABLE T (u varchar);\n") :=
  ⟨rfl, rfl, rfl⟩

end Xsd2pgsql
